import Mathlib

/-!
Shallow embedding of the reminder scheduling and delivery core of the
MSSSE Birthday Reminder Bot (a WhatsApp bot backed by SQLite), together
with theorems settling the frozen claims about its specification.

Conventions of the embedding:
- Machine strings (phone numbers, group ids, display names, UUIDs) are
  modelled as naturals; SQLite BINARY collation on TEXT columns is a total
  order, modelled by the order on Nat.
- SQL DATE values are modelled by a `Date` structure (year, month, day);
  `strftime` month-day projections become the `md` projection.
- moment.js instants are modelled as milliseconds: a date at local
  midnight contributes `dayNumber d * 86400000`, plus a time-of-day
  offset.  The configured zone (Africa/Lagos) has a fixed offset, so a
  single local clock suffices.
- Asynchronous repository calls are pure state transformers on a `DB`
  snapshot; try/catch blocks become explicit branches that leave the
  state unchanged on the thrown path.
-/

namespace BirthdayBot

/-! ### Calendar arithmetic (DateMath) -/

/-- A calendar date, as stored in the SQLite DATE columns (YYYY-MM-DD). -/
structure Date where
  year : Nat
  month : Nat
  day : Nat
deriving DecidableEq

/-- The month-day projection, as computed by `strftime` with a month-day
format string in the repository queries. -/
def md (d : Date) : Nat × Nat := (d.month, d.day)

/-- Gregorian leap-year test. -/
def isLeap (y : Nat) : Bool := (y % 4 == 0 && y % 100 != 0) || y % 400 == 0

/-- Length of month `m` of year `y` (0 for out-of-range months). -/
def daysInMonth (y m : Nat) : Nat :=
  match m with
  | 1 => 31
  | 2 => if isLeap y then 29 else 28
  | 3 => 31
  | 4 => 30
  | 5 => 31
  | 6 => 30
  | 7 => 31
  | 8 => 31
  | 9 => 30
  | 10 => 31
  | 11 => 30
  | 12 => 31
  | _ => 0

/-- Days in year `y` before the first of month `m`. -/
def daysBeforeMonth (y : Nat) : Nat → Nat
  | 0 => 0
  | m + 1 => daysBeforeMonth y m + daysInMonth y m

/-- Number of leap years strictly before year `y` (year 0 counts as leap). -/
def leapYearsBefore (y : Nat) : Nat :=
  if y = 0 then 0 else (y - 1) / 4 - (y - 1) / 100 + (y - 1) / 400 + 1

/-- Linear day count of a date (day 0 is January 1 of year 0); the
embedding of the time line moment.js arithmetic runs on. -/
def dayNumber (d : Date) : Nat :=
  365 * d.year + leapYearsBefore d.year + daysBeforeMonth d.year d.month + (d.day - 1)

/-- Strict calendar order on dates: what `isBefore` with day granularity
compares in `getNextBirthdayDate` (part_000 line 395). -/
def dateLt (a b : Date) : Prop :=
  a.year < b.year ∨ (a.year = b.year ∧
    (a.month < b.month ∨ (a.month = b.month ∧ a.day < b.day)))

instance : DecidableRel dateLt := fun _ _ =>
  inferInstanceAs (Decidable (_ ∨ _))

/-- The `diff(_, days)` of moment.js: the millisecond difference of two
instants divided by 86400000 and truncated toward zero. -/
def momentDiffDays (target ref : Nat) : Int :=
  if ref ≤ target then (((target - ref) / 86400000 : Nat) : Int)
  else -(((ref - target) / 86400000 : Nat) : Int)

/-- The days-until computation of part_000 (lines 171 and 216):
`nextBirthday.diff(moment(), days)` where `nextBirthday` sits at local
midnight of the target date (birth dates parse to midnight) and the
reference instant is the current date plus a time-of-day offset `tod`
in milliseconds. -/
def daysUntilCode (target ref : Date) (tod : Nat) : Int :=
  momentDiffDays (dayNumber target * 86400000) (dayNumber ref * 86400000 + tod)

/-- `getNextBirthdayDate` (part_000 lines 389-400): place the stored
month-day in the current year; if that candidate is strictly before the
reference date at day granularity, add one year. -/
def getNextBirthdayDate (bMonth bDay : Nat) (now : Date) : Date :=
  let candidate : Date := ⟨now.year, bMonth, bDay⟩
  if dateLt candidate now then ⟨now.year + 1, bMonth, bDay⟩ else candidate

/-- Claim C5: the next-occurrence computation returns the reference date
itself (with a zero days-until) when the stored month-day equals the
reference month-day, and rolls to the next year exactly when the stored
month-day is calendar-earlier than the reference month-day. -/
theorem nextOccurrence_correct (bm bd : Nat) (now : Date) (tod : Nat)
    (hm1 : 1 ≤ bm) (hm2 : bm ≤ 12) (hd1 : 1 ≤ bd)
    (hd2 : bd ≤ daysInMonth now.year bm) :
    ((bm = now.month ∧ bd = now.day) →
      getNextBirthdayDate bm bd now = now ∧
      (tod < 86400000 → daysUntilCode (getNextBirthdayDate bm bd now) now tod = 0)) ∧
    ((bm < now.month ∨ (bm = now.month ∧ bd < now.day)) →
      getNextBirthdayDate bm bd now = ⟨now.year + 1, bm, bd⟩) := by
  constructor
  · rintro ⟨hbm, hbd⟩
    subst hbm; subst hbd
    have hcand : (⟨now.year, now.month, now.day⟩ : Date) = now := rfl
    have hlt : ¬ dateLt (⟨now.year, now.month, now.day⟩ : Date) now := by
      rw [hcand]
      rintro (h | ⟨h1, h2 | ⟨h3, h4⟩⟩) <;> omega
    have hres : getNextBirthdayDate now.month now.day now = now := by
      simp only [getNextBirthdayDate, if_neg hlt, hcand]
    refine ⟨hres, fun htod => ?_⟩
    rw [hres]
    simp only [daysUntilCode, momentDiffDays]
    by_cases h0 : tod = 0
    · subst h0
      simp
    · rw [if_neg (by omega)]
      have : (dayNumber now * 86400000 + tod - dayNumber now * 86400000) = tod := by
        omega
      rw [this, Nat.div_eq_of_lt htod]
      simp
  · intro h
    have hlt : dateLt (⟨now.year, bm, bd⟩ : Date) now := by
      rcases h with h | ⟨h1, h2⟩
      · exact Or.inr ⟨rfl, Or.inl h⟩
      · exact Or.inr ⟨rfl, Or.inr ⟨h1, h2⟩⟩
    simp only [getNextBirthdayDate, if_pos hlt]

/-- Witness for C5 at March 14 2025 (equal month-day, then an earlier
month-day rolling to 2026). -/
theorem nextOccurrence_correct_witness :
    getNextBirthdayDate 3 14 ⟨2025, 3, 14⟩ = ⟨2025, 3, 14⟩ ∧
    daysUntilCode (getNextBirthdayDate 3 14 ⟨2025, 3, 14⟩) ⟨2025, 3, 14⟩ 3600000 = 0 ∧
    getNextBirthdayDate 2 1 ⟨2025, 3, 14⟩ = ⟨2026, 2, 1⟩ := by
  have h₁ := nextOccurrence_correct 3 14 ⟨2025, 3, 14⟩ 3600000
    (by decide) (by decide) (by decide) (by decide)
  have h₂ := nextOccurrence_correct 2 1 ⟨2025, 3, 14⟩ 0
    (by decide) (by decide) (by decide) (by decide)
  exact ⟨(h₁.1 ⟨rfl, rfl⟩).1, (h₁.1 ⟨rfl, rfl⟩).2 (by decide),
    h₂.2 (Or.inl (by decide))⟩

/-- Counterexample to claim C6: March 15 2025 is the calendar day after
March 14 2025, yet with a noon reference instant the computed days-until
is 0, not 1 — the reference time of day does change the result. -/
theorem daysUntil_time_of_day_cex :
    dayNumber ⟨2025, 3, 15⟩ = dayNumber ⟨2025, 3, 14⟩ + 1 ∧
    daysUntilCode ⟨2025, 3, 15⟩ ⟨2025, 3, 14⟩ 43200000 = 0 ∧
    daysUntilCode ⟨2025, 3, 15⟩ ⟨2025, 3, 14⟩ 0 = 1 := by
  refine ⟨by decide, by decide, by decide⟩

/-- Amended C6: the days-until computation is the truncated difference of
instants, not of calendar dates.  It is non-negative whenever the target
date is on or after the reference date, and for a target on the next
calendar day it returns 1 exactly when the reference instant is at local
midnight, and 0 for every later time of day. -/
theorem daysUntil_instant_diff (target ref : Date) (tod : Nat)
    (htod : tod < 86400000) :
    (dayNumber ref ≤ dayNumber target → 0 ≤ daysUntilCode target ref tod) ∧
    (dayNumber target = dayNumber ref + 1 →
      daysUntilCode target ref tod = if tod = 0 then 1 else 0) := by
  constructor
  · intro hle
    simp only [daysUntilCode, momentDiffDays]
    by_cases h : dayNumber ref * 86400000 + tod ≤ dayNumber target * 86400000
    · rw [if_pos h]
      exact Int.ofNat_nonneg _
    · rw [if_neg h]
      have hsub : dayNumber ref * 86400000 + tod - dayNumber target * 86400000 < 86400000 := by
        have : dayNumber ref * 86400000 ≤ dayNumber target * 86400000 :=
          Nat.mul_le_mul_right _ hle
        omega
      rw [Nat.div_eq_of_lt hsub]
      simp
  · intro hnext
    simp only [daysUntilCode, momentDiffDays, hnext]
    have hle : dayNumber ref * 86400000 + tod ≤ (dayNumber ref + 1) * 86400000 := by
      omega
    rw [if_pos hle]
    have hsub : (dayNumber ref + 1) * 86400000 - (dayNumber ref * 86400000 + tod)
        = 86400000 - tod := by omega
    rw [hsub]
    by_cases h0 : tod = 0
    · subst h0
      simp
    · rw [if_neg h0, Nat.div_eq_of_lt (by omega)]
      simp

/-- Witness for the amended C6 at March 15/16 2025 with a midnight
reference. -/
theorem daysUntil_instant_diff_witness :
    (0 : Int) ≤ daysUntilCode ⟨2025, 3, 16⟩ ⟨2025, 3, 15⟩ 0 ∧
    daysUntilCode ⟨2025, 3, 16⟩ ⟨2025, 3, 15⟩ 0 = 1 := by
  have h := daysUntil_instant_diff ⟨2025, 3, 16⟩ ⟨2025, 3, 15⟩ 0 (by decide)
  refine ⟨h.1 (by decide), ?_⟩
  have h2 := h.2 (by decide)
  simpa using h2

/-! ### Data model (init.sql)

Rows of the four tables created by init.sql.  TEXT identifiers and
display names are modelled as naturals (see the header note). -/

/-- A row of the users table: phone_number (primary key) and name. -/
structure UserRec where
  phoneNumber : Nat
  name : Nat
deriving DecidableEq

/-- A row of the groups table: group_id (primary key), group_name,
bot_active. -/
structure GroupRec where
  groupId : Nat
  groupName : Nat
  botActive : Bool
deriving DecidableEq

/-- A row of the birthdays table: id (primary key), phone_number,
birth_date (a full DATE, year included), group_id. -/
structure BirthdayRec where
  id : Nat
  phoneNumber : Nat
  birthDate : Date
  groupId : Nat
deriving DecidableEq

/-- A row of the reminders table: id (primary key), birthday_id,
reminder_date, sent, sent_at.  init.sql places no unique constraint on
(birthday_id, reminder_date). -/
structure ReminderRec where
  id : Nat
  birthdayId : Nat
  reminderDate : Date
  sent : Bool
  sentAt : Option Nat
deriving DecidableEq

/-- The SQLite database state. -/
structure DB where
  users : List UserRec
  groups : List GroupRec
  birthdays : List BirthdayRec
  reminders : List ReminderRec
deriving DecidableEq

/-! ### ReminderRepository (part_004 lines 163-333) -/

/-- `createReminder` (part_004 lines 171-177): INSERT a reminder row
with sent = false and sent_at = NULL; the fresh UUID is the `newId`
parameter. -/
def createReminder (db : DB) (newId birthdayId : Nat) (date : Date) : DB :=
  { db with reminders := db.reminders ++ [⟨newId, birthdayId, date, false, none⟩] }

/-- `markReminderSent` (part_004 lines 183-190): UPDATE reminders SET
sent = true, sent_at = CURRENT_TIMESTAMP WHERE id = ?.  There is no
`sent = false` guard in the WHERE clause. -/
def markReminderSent (db : DB) (reminderId now : Nat) : DB :=
  { db with reminders := db.reminders.map fun r =>
      if r.id = reminderId then { r with sent := true, sentAt := some now } else r }

/-- SQL LEFT JOIN against a matching row list: an unmatched left row
survives once with NULL fields. -/
def leftJoin {α : Type} (ms : List α) : List (Option α) :=
  if ms.isEmpty then [none] else ms.map some

/-- One result row of the `getPendingReminders` query: r.* joined with
b.phone_number, b.group_id, u.name (nullable) and g.group_name. -/
structure PendingRow where
  reminderId : Nat
  birthdayId : Nat
  phoneNumber : Nat
  groupId : Nat
  name : Option Nat
  groupName : Nat
deriving DecidableEq

/-- ORDER BY key for a nullable name column: SQLite sorts NULL before
every value in ascending order. -/
def nameKey : Option Nat → Nat
  | none => 0
  | some n => n + 1

/-- The ordering actually requested by `getPendingReminders`:
ORDER BY g.group_name, u.name. -/
def rowLE (x y : PendingRow) : Prop :=
  x.groupName < y.groupName ∨
    (x.groupName = y.groupName ∧ nameKey x.name ≤ nameKey y.name)

instance : DecidableRel rowLE := fun _ _ =>
  inferInstanceAs (Decidable (_ ∨ _))

instance : IsTotal PendingRow rowLE where
  total x y := by
    rcases Nat.lt_trichotomy x.groupName y.groupName with h | h | h
    · exact Or.inl (Or.inl h)
    · rcases Nat.le_total (nameKey x.name) (nameKey y.name) with h2 | h2
      · exact Or.inl (Or.inr ⟨h, h2⟩)
      · exact Or.inr (Or.inr ⟨h.symm, h2⟩)
    · exact Or.inr (Or.inl h)

instance : IsTrans PendingRow rowLE where
  trans x y z hxy hyz := by
    rcases hxy with h | ⟨h1, h2⟩ <;> rcases hyz with h3 | ⟨h4, h5⟩
    · exact Or.inl (h.trans h3)
    · exact Or.inl (h4 ▸ h)
    · exact Or.inl (h1 ▸ h3)
    · exact Or.inr ⟨h1.trans h4, h2.trans h5⟩

/-- The join and WHERE clause of `getPendingReminders` (part_004 lines
195-207), before ORDER BY: reminders INNER JOIN birthdays, LEFT JOIN
users, LEFT JOIN groups, keeping rows with the requested reminder_date,
sent = false, and g.bot_active = true (which discards NULL groups). -/
def pendingRows (db : DB) (date : Date) : List PendingRow :=
  db.reminders.flatMap fun r =>
    (db.birthdays.filter fun b => decide (b.id = r.birthdayId)).flatMap fun b =>
      (leftJoin (db.users.filter fun u => decide (u.phoneNumber = b.phoneNumber))).flatMap
        fun u? =>
        (leftJoin (db.groups.filter fun g => decide (g.groupId = b.groupId))).filterMap
          fun g? =>
          match g? with
          | some g =>
            if r.reminderDate = date ∧ r.sent = false ∧ g.botActive = true then
              some ⟨r.id, r.birthdayId, b.phoneNumber, b.groupId,
                u?.map UserRec.name, g.groupName⟩
            else none
          | none => none

/-- `getPendingReminders` (part_004 lines 195-207): the join rows in the
order requested by ORDER BY g.group_name, u.name. -/
def getPendingReminders (db : DB) (date : Date) : List PendingRow :=
  List.insertionSort rowLE (pendingRows db date)

/-- EXISTS test of the `createTodaysReminders` sub-query (part_004
lines 314-317). -/
def hasReminderFor (db : DB) (bid : Nat) (d : Date) : Bool :=
  db.reminders.any fun r => decide (r.birthdayId = bid ∧ r.reminderDate = d)

/-- Membership test of the INNER JOIN groups ... bot_active = true
clause. -/
def activeGroup (db : DB) (gid : Nat) : Bool :=
  db.groups.any fun g => decide (g.groupId = gid ∧ g.botActive = true)

/-- The SELECT of `createTodaysReminders` (part_004 lines 308-320):
birthdays whose month-day matches the requested date, whose group is
active, and which have no reminder row for that date yet. -/
def eligibleBirthdays (db : DB) (today : Date) : List BirthdayRec :=
  db.birthdays.filter fun b =>
    decide (md b.birthDate = md today) && activeGroup db b.groupId
      && !(hasReminderFor db b.id today)

/-- `createTodaysReminders` (part_004 lines 303-330) run at a given
date: snapshot the eligible birthdays, then loop `createReminder` over
them; the returned count is the length of the results array.  The fresh
UUID for the reminder of birthday `b` is modelled as `ids b.id`. -/
def createTodaysRemindersAt (db : DB) (today : Date) (ids : Nat → Nat) : DB × Nat :=
  let bs := eligibleBirthdays db today
  (bs.foldl (fun acc b => createReminder acc (ids b.id) b.id today) db, bs.length)

/-! ### BirthdayRepository (part_004 lines 5-161) -/

/-- `addOrUpdateBirthday` (part_004 lines 9-30): UPDATE the birth_date
in place when a row for (phone_number, group_id) exists, otherwise
INSERT a fresh row. -/
def addOrUpdateBirthday (db : DB) (phone : Nat) (birthDate : Date)
    (groupId newId : Nat) : DB :=
  if db.birthdays.any fun b => decide (b.phoneNumber = phone ∧ b.groupId = groupId) then
    { db with birthdays := db.birthdays.map fun b =>
        if b.phoneNumber = phone ∧ b.groupId = groupId
        then { b with birthDate := birthDate } else b }
  else
    { db with birthdays := db.birthdays ++ [⟨newId, phone, birthDate, groupId⟩] }

/-- `validateDate` (part_000 lines 353-384): after a strict DD/MM parse
succeeds, the year is set to the CURRENT year of the execution instant
and the stored string is the full YYYY-MM-DD date. -/
def validateDateStored (day month currentYear : Nat) : Date :=
  ⟨currentYear, month, day⟩

/-! ### CronScheduler (part_001)

The scheduler calls `reminderRepository` methods by name; JavaScript
resolves those names at run time and a call to a name the class does not
define throws a TypeError.  The table below records, for every name that
appears at a reminderRepository call site in part_001, whether part_004
defines a method of that name. -/

/-- Method names used at reminderRepository call sites in part_001. -/
inductive RemRepoCall where
  | getPendingReminders
  | markReminderAsSent
  | createRemindersForDate
  | deleteOldReminders
deriving DecidableEq

/-- Which of those names class ReminderRepository (part_004 lines
167-331) actually defines.  part_004 defines `markReminderSent` but not
`markReminderAsSent`, and `createTodaysReminders` but not
`createRemindersForDate`. -/
def reminderRepoDefines : RemRepoCall → Bool
  | .getPendingReminders => true
  | .deleteOldReminders => true
  | .markReminderAsSent => false
  | .createRemindersForDate => false

/-- `processBirthdayReminder` (part_001 lines 143-162): send the message
to the group, then call `reminderRepository.markReminderAsSent(id)`.
The whole body sits in one try/catch, so a failed send leaves the state
and log unchanged, and the TypeError thrown by the unresolvable
`markReminderAsSent` is swallowed after the message went out (the dead
branch shows what the defined method `markReminderSent` would do).  The
log accumulates the reminder ids whose message reached the sink. -/
def processBirthdayReminder (db : DB) (log : List Nat) (row : PendingRow)
    (sinkOk : Bool) (now : Nat) : DB × List Nat :=
  if sinkOk then
    if reminderRepoDefines .markReminderAsSent then
      (markReminderSent db row.reminderId now, log ++ [row.reminderId])
    else
      (db, log ++ [row.reminderId])
  else (db, log)

/-- `checkTodaysBirthdays` (part_001 lines 112-138): fetch the pending
reminders once, then process them in order, the sink outcome of each
record given by `sink` on its reminder id (the pacing delay has no
state effect and is dropped). -/
def checkTodaysBirthdays (db : DB) (today : Date) (sink : Nat → Bool)
    (now : Nat) : DB × List Nat :=
  (getPendingReminders db today).foldl
    (fun acc row => processBirthdayReminder acc.1 acc.2 row (sink row.reminderId) now)
    (db, [])

/-- `createTomorrowReminders` (part_001 lines 185-196): compute
tomorrow and call `reminderRepository.createRemindersForDate(tomorrow)`
inside try/catch.  No method of that name exists, so the call throws
and the catch swallows the error: nothing is created (the dead branch
shows the nearest defined method applied at the passed date). -/
def createTomorrowReminders (db : DB) (tomorrow : Date) (ids : Nat → Nat) : DB × Nat :=
  if reminderRepoDefines .createRemindersForDate then
    createTodaysRemindersAt db tomorrow ids
  else
    (db, 0)

/-! ### Concrete stores used by counterexamples and witnesses -/

/-- One active group, one member, one birthday on March 15, one pending
reminder for March 15 2025. -/
def db1 : DB :=
  { users := [⟨1, 1⟩]
    groups := [⟨1, 1, true⟩]
    birthdays := [⟨1, 1, ⟨1990, 3, 15⟩, 1⟩]
    reminders := [⟨1, 1, ⟨2025, 3, 15⟩, false, none⟩] }

/-- One active group and one birthday on March 15, with no reminder rows
yet. -/
def db3 : DB :=
  { users := []
    groups := [⟨1, 1, true⟩]
    birthdays := [⟨1, 1, ⟨1990, 3, 15⟩, 1⟩]
    reminders := [] }

/-- Three members of one active group, each with a pending reminder for
March 15 2025; display names order the rows 1, 2, 3. -/
def db8 : DB :=
  { users := [⟨1, 1⟩, ⟨2, 2⟩, ⟨3, 3⟩]
    groups := [⟨1, 1, true⟩]
    birthdays := [⟨1, 1, ⟨1990, 3, 15⟩, 1⟩, ⟨2, 2, ⟨1991, 3, 15⟩, 1⟩,
      ⟨3, 3, ⟨1992, 3, 15⟩, 1⟩]
    reminders := [⟨1, 1, ⟨2025, 3, 15⟩, false, none⟩,
      ⟨2, 2, ⟨2025, 3, 15⟩, false, none⟩, ⟨3, 3, ⟨2025, 3, 15⟩, false, none⟩] }

/-! ### Claims C1, C2, C8: the scheduler jobs -/

/-- `processBirthdayReminder` never changes the store: the mark-sent
call cannot resolve. -/
theorem processBirthdayReminder_fst (db : DB) (log : List Nat) (row : PendingRow)
    (ok : Bool) (now : Nat) : (processBirthdayReminder db log row ok now).1 = db := by
  cases ok <;> simp [processBirthdayReminder, reminderRepoDefines]

/-- The dispatch fold leaves the store component of its accumulator
untouched. -/
theorem dispatch_foldl_fst (l : List PendingRow) (sink : Nat → Bool) (now : Nat)
    (acc : DB × List Nat) :
    (l.foldl (fun acc row =>
        processBirthdayReminder acc.1 acc.2 row (sink row.reminderId) now) acc).1
      = acc.1 := by
  induction l generalizing acc with
  | nil => rfl
  | cons row l ih =>
    rw [List.foldl_cons, ih]
    exact processBirthdayReminder_fst _ _ _ _ _

/-- Claim C1 (code bug): a dispatch run never marks any reminder sent —
the store always comes back unchanged, because part_001 calls the
nonexistent method `markReminderAsSent` and swallows the TypeError; on
the concrete store `db1` a clean run delivers reminder 1 yet a second
run delivers it again instead of sending nothing. -/
theorem dispatch_never_marks_sent :
    (∀ (db : DB) (d : Date) (sink : Nat → Bool) (now : Nat),
        (checkTodaysBirthdays db d sink now).1 = db) ∧
    (checkTodaysBirthdays db1 ⟨2025, 3, 15⟩ (fun _ => true) 50).2 = [1] ∧
    (checkTodaysBirthdays
        (checkTodaysBirthdays db1 ⟨2025, 3, 15⟩ (fun _ => true) 50).1
        ⟨2025, 3, 15⟩ (fun _ => true) 51).2 = [1] := by
  refine ⟨fun db d sink now => dispatch_foldl_fst _ _ _ _, by decide, ?_⟩
  have h : (checkTodaysBirthdays db1 ⟨2025, 3, 15⟩ (fun _ => true) 50).1 = db1 :=
    dispatch_foldl_fst (getPendingReminders db1 ⟨2025, 3, 15⟩) (fun _ => true) 50
      (db1, [])
  rw [h]
  decide

/-- Claim C2 (code bug): the nightly materialization job creates
nothing for any store and any date — part_001 calls the nonexistent
method `createRemindersForDate` and swallows the TypeError — although
on the concrete store `db3` the repository method that does exist
would materialize one reminder when run at that date. -/
theorem materializer_creates_nothing :
    (∀ (db : DB) (t : Date) (ids : Nat → Nat),
        createTomorrowReminders db t ids = (db, 0)) ∧
    (createTodaysRemindersAt db3 ⟨2025, 3, 15⟩ (fun n => n + 100)).2 = 1 ∧
    (createTodaysRemindersAt db3 ⟨2025, 3, 15⟩ (fun n => n + 100)).1.reminders
      = [⟨101, 1, ⟨2025, 3, 15⟩, false, none⟩] := by
  exact ⟨fun db t ids => by simp [createTomorrowReminders, reminderRepoDefines],
    by decide, by decide⟩

/-- Claim C8 (code bug): with pending reminders 1, 2, 3 and a sink that
fails only for reminder 2, the run does continue past the failure and
delivers 1 and 3 — but contrary to the claim no record ends up with
sent = true, because the mark-sent call never resolves. -/
theorem dispatch_partial_failure :
    (checkTodaysBirthdays db8 ⟨2025, 3, 15⟩ (fun rid => decide (rid ≠ 2)) 50).2
      = [1, 3] ∧
    (checkTodaysBirthdays db8 ⟨2025, 3, 15⟩ (fun rid => decide (rid ≠ 2)) 50).1
      = db8 := by
  exact ⟨by decide, by decide⟩

/-! ### Claim C4: markReminderSent -/

/-- A store whose only reminder is already sent, with sent_at = 5. -/
def dbC4 : DB :=
  { users := [], groups := [], birthdays := []
    reminders := [⟨1, 1, ⟨2025, 3, 15⟩, true, some 5⟩] }

/-- Counterexample to claim C4: calling `markReminderSent` on an
already-sent reminder is not a no-op — the UPDATE has no sent = false
guard, so sent_at is overwritten with the new timestamp. -/
theorem markReminderSent_not_noop_cex :
    markReminderSent dbC4 1 9 ≠ dbC4 ∧
    (markReminderSent dbC4 1 9).reminders = [⟨1, 1, ⟨2025, 3, 15⟩, true, some 9⟩] := by
  exact ⟨by decide, by decide⟩

/-- Amended C4: `markReminderSent` unconditionally sets sent = true and
sent_at = now on every row with the given id, already sent or not,
and leaves other rows alone; creation initializes sent = false with a
NULL sent_at, and both operations preserve the invariant that sent_at
is non-NULL exactly when sent is true. -/
theorem markReminderSent_unconditional (db : DB) (rid now : Nat) :
    (∀ r ∈ db.reminders, r.id = rid →
        ({ r with sent := true, sentAt := some now } : ReminderRec)
          ∈ (markReminderSent db rid now).reminders) ∧
    (∀ r ∈ db.reminders, r.id ≠ rid → r ∈ (markReminderSent db rid now).reminders) ∧
    ((∀ r ∈ db.reminders, r.sentAt.isSome = r.sent) →
        ∀ r ∈ (markReminderSent db rid now).reminders, r.sentAt.isSome = r.sent) ∧
    (∀ (nid bid : Nat) (d : Date),
        (∀ r ∈ db.reminders, r.sentAt.isSome = r.sent) →
        ∀ r ∈ (createReminder db nid bid d).reminders, r.sentAt.isSome = r.sent) := by
  refine ⟨?_, ?_, ?_, ?_⟩
  · intro r hr hid
    have : ({ r with sent := true, sentAt := some now } : ReminderRec)
        = (fun r : ReminderRec =>
            if r.id = rid then { r with sent := true, sentAt := some now } else r) r := by
      simp [hid]
    rw [this]
    exact List.mem_map_of_mem _ hr
  · intro r hr hid
    have : r = (fun r : ReminderRec =>
        if r.id = rid then { r with sent := true, sentAt := some now } else r) r := by
      simp [hid]
    rw [this]
    exact List.mem_map_of_mem _ hr
  · intro hinv r hr
    simp only [markReminderSent, List.mem_map] at hr
    obtain ⟨s, hs, hmap⟩ := hr
    by_cases hid : s.id = rid
    · rw [if_pos hid] at hmap
      rw [← hmap]
      rfl
    · rw [if_neg hid] at hmap
      rw [← hmap]
      exact hinv s hs
  · intro nid bid d hinv r hr
    simp only [createReminder, List.mem_append, List.mem_singleton] at hr
    rcases hr with hr | hr
    · exact hinv r hr
    · rw [hr]
      rfl

/-- Witness for the amended C4 on `dbC4` and on an unsent row. -/
theorem markReminderSent_unconditional_witness :
    ((⟨1, 1, ⟨2025, 3, 15⟩, true, some 9⟩ : ReminderRec)
      ∈ (markReminderSent dbC4 1 9).reminders) ∧
    (∀ r ∈ (markReminderSent dbC4 1 9).reminders, r.sentAt.isSome = r.sent) := by
  have h := markReminderSent_unconditional dbC4 1 9
  exact ⟨h.1 ⟨1, 1, ⟨2025, 3, 15⟩, true, some 5⟩ (by decide) rfl,
    h.2.2.1 (by decide)⟩

/-! ### Claim C9: stored birthday representation -/

/-- An empty store. -/
def db9 : DB := { users := [], groups := [], birthdays := [], reminders := [] }

/-- Counterexample to claim C9: adding the same day/month input on two
different execution years stores two different representations — the
stored birth_date embeds the year current at execution time. -/
theorem stored_birthday_depends_on_exec_year_cex :
    addOrUpdateBirthday db9 7 (validateDateStored 15 3 2025) 4 11
      ≠ addOrUpdateBirthday db9 7 (validateDateStored 15 3 2026) 4 11 := by
  decide

/-- Projection of a stored birthday row to everything except the stored
year: id, owner, group and month-day. -/
def birthdayKey (b : BirthdayRec) : Nat × Nat × Nat × (Nat × Nat) :=
  (b.id, b.phoneNumber, b.groupId, md b.birthDate)

/-- Amended C9: the stored representation depends on the execution year
only through the year field of birth_date; its month-day (the only part
any query reads, via strftime month-day projections) together with
owner, group and row id is independent of the execution date. -/
theorem stored_birthday_monthday_invariant
    (db : DB) (phone g nid d m y1 y2 : Nat) :
    ((addOrUpdateBirthday db phone (validateDateStored d m y1) g nid).birthdays.map
        birthdayKey)
      = ((addOrUpdateBirthday db phone (validateDateStored d m y2) g nid).birthdays.map
        birthdayKey) := by
  unfold addOrUpdateBirthday
  by_cases h : (db.birthdays.any fun b =>
      decide (b.phoneNumber = phone ∧ b.groupId = g)) = true
  · rw [if_pos h, if_pos h]
    dsimp only
    rw [List.map_map, List.map_map]
    apply List.map_congr_left
    intro b _
    by_cases hb : b.phoneNumber = phone ∧ b.groupId = g
    · simp only [Function.comp_apply, if_pos hb]
      simp [birthdayKey, md, validateDateStored]
    · simp only [Function.comp_apply, if_neg hb]
  · rw [if_neg h, if_neg h]
    simp [birthdayKey, md, validateDateStored]

/-! ### Claim C7: pending-reminder ordering -/

/-- The ordering the claim asserts: group id first, then owner id. -/
def rowLEClaim (x y : PendingRow) : Prop :=
  x.groupId < y.groupId ∨ (x.groupId = y.groupId ∧ x.phoneNumber ≤ y.phoneNumber)

instance : DecidableRel rowLEClaim := fun _ _ =>
  inferInstanceAs (Decidable (_ ∨ _))

/-- Two active groups whose display-name order is the reverse of their
id order, each with one pending reminder for March 15 2025. -/
def dbC7 : DB :=
  { users := []
    groups := [⟨1, 2, true⟩, ⟨2, 1, true⟩]
    birthdays := [⟨1, 1, ⟨1990, 3, 15⟩, 1⟩, ⟨2, 2, ⟨1991, 3, 15⟩, 2⟩]
    reminders := [⟨1, 1, ⟨2025, 3, 15⟩, false, none⟩,
      ⟨2, 2, ⟨2025, 3, 15⟩, false, none⟩] }

/-- Counterexample to claim C7: on `dbC7` the query returns the group
with id 2 first (its display name sorts first), so the output is not
sorted by group id then owner id. -/
theorem pending_order_not_by_ids_cex :
    (getPendingReminders dbC7 ⟨2025, 3, 15⟩).map PendingRow.groupId = [2, 1] ∧
    ¬ List.Sorted rowLEClaim (getPendingReminders dbC7 ⟨2025, 3, 15⟩) := by
  exact ⟨by decide, by decide⟩

/-- Amended C7: `getPendingReminders` returns the pending join rows in
an order sorted by group display name and then by member display name
(NULL names first) — the ORDER BY of the query — as a permutation of
the underlying join rows. -/
theorem pending_sorted_by_names (db : DB) (d : Date) :
    List.Sorted rowLE (getPendingReminders db d) ∧
    List.Perm (getPendingReminders db d) (pendingRows db d) := by
  exact ⟨List.sorted_insertionSort rowLE _, List.perm_insertionSort rowLE _⟩

/-! ### Claim C3: materialization dedup and idempotence -/

/-- Number of reminder rows for a given (birthday, date) pair. -/
def pairCount (db : DB) (bid : Nat) (d : Date) : Nat :=
  db.reminders.countP fun r => decide (r.birthdayId = bid ∧ r.reminderDate = d)

/-- The dedup invariant: at most one reminder row per (birthday, date)
pair. -/
def pairUnique (db : DB) : Prop := ∀ (bid : Nat) (d : Date), pairCount db bid d ≤ 1

/-- The creation loop of `createTodaysReminders` appends one fresh
unsent row per eligible birthday, in order. -/
theorem foldl_createReminder (l : List BirthdayRec) (ids : Nat → Nat) (today : Date)
    (db : DB) :
    l.foldl (fun acc b => createReminder acc (ids b.id) b.id today) db
      = { db with reminders := db.reminders
            ++ l.map fun b => ⟨ids b.id, b.id, today, false, none⟩ } := by
  induction l generalizing db with
  | nil => simp
  | cons b l ih =>
    rw [List.foldl_cons, ih]
    simp [createReminder]

/-- Reminder rows after a materialization run. -/
theorem createTodaysRemindersAt_reminders (db : DB) (today : Date) (ids : Nat → Nat) :
    (createTodaysRemindersAt db today ids).1.reminders
      = db.reminders ++ (eligibleBirthdays db today).map
          (fun b => (⟨ids b.id, b.id, today, false, none⟩ : ReminderRec)) := by
  show ((eligibleBirthdays db today).foldl
      (fun acc b => createReminder acc (ids b.id) b.id today) db).reminders = _
  rw [foldl_createReminder]

/-- Birthday rows are untouched by a materialization run. -/
theorem createTodaysRemindersAt_birthdays (db : DB) (today : Date) (ids : Nat → Nat) :
    (createTodaysRemindersAt db today ids).1.birthdays = db.birthdays := by
  show ((eligibleBirthdays db today).foldl
      (fun acc b => createReminder acc (ids b.id) b.id today) db).birthdays = _
  rw [foldl_createReminder]

/-- Group rows are untouched by a materialization run. -/
theorem createTodaysRemindersAt_groups (db : DB) (today : Date) (ids : Nat → Nat) :
    (createTodaysRemindersAt db today ids).1.groups = db.groups := by
  show ((eligibleBirthdays db today).foldl
      (fun acc b => createReminder acc (ids b.id) b.id today) db).groups = _
  rw [foldl_createReminder]

/-- The EXISTS test holds exactly when the pair count is positive. -/
theorem hasReminderFor_iff (db : DB) (bid : Nat) (d : Date) :
    hasReminderFor db bid d = true ↔ 0 < pairCount db bid d := by
  simp [hasReminderFor, pairCount, List.any_eq_true, List.countP_pos_iff]

/-- Membership in the eligible-birthday SELECT. -/
theorem mem_eligibleBirthdays {db : DB} {today : Date} {b : BirthdayRec} :
    b ∈ eligibleBirthdays db today
      ↔ b ∈ db.birthdays ∧ md b.birthDate = md today
        ∧ activeGroup db b.groupId = true ∧ hasReminderFor db b.id today = false := by
  simp [eligibleBirthdays, List.mem_filter, Bool.and_eq_true, decide_eq_true_eq,
    Bool.not_eq_true', and_assoc]

/-- Among rows with pairwise distinct ids, the count of rows that share
the id of a member `b` and satisfy `p` is determined by `p b`. -/
theorem nodup_countP_key {l : List BirthdayRec}
    (h : (l.map BirthdayRec.id).Nodup) {b : BirthdayRec} (hb : b ∈ l)
    (p : BirthdayRec → Bool) :
    l.countP (fun x => decide (x.id = b.id) && p x) = if p b then 1 else 0 := by
  induction l with
  | nil => cases hb
  | cons a l ih =>
    rw [List.map_cons, List.nodup_cons] at h
    rcases List.mem_cons.mp hb with rfl | hbl
    · rw [List.countP_cons]
      have hz : l.countP (fun x => decide (x.id = b.id) && p x) = 0 := by
        apply List.countP_eq_zero.mpr
        intro x hx
        simp only [Bool.and_eq_true, decide_eq_true_eq, not_and]
        intro hxid _
        exact h.1 (hxid ▸ List.mem_map_of_mem BirthdayRec.id hx)
      rw [hz]
      by_cases hp : p b = true
      · simp [hp]
      · simp [Bool.eq_false_iff.mpr hp]
    · have hane : (decide (a.id = b.id) && p a) = false := by
        have : a.id ≠ b.id := fun he =>
          h.1 (he ▸ List.mem_map_of_mem BirthdayRec.id hbl)
        simp [this]
      rw [List.countP_cons, hane, ih h.2 hbl]
      simp

/-- Among rows with pairwise distinct ids, at most one row carries any
given id. -/
theorem nodup_countP_le_one {l : List BirthdayRec}
    (h : (l.map BirthdayRec.id).Nodup) (bid : Nat) :
    l.countP (fun x => decide (x.id = bid)) ≤ 1 := by
  by_cases hex : ∃ b ∈ l, b.id = bid
  · obtain ⟨b, hb, hbid⟩ := hex
    have hkey := nodup_countP_key h hb (fun _ => true)
    have hcongr : l.countP (fun x => decide (x.id = bid))
        = l.countP (fun x => decide (x.id = b.id) && true) := by
      apply List.countP_congr
      intro x _
      simp [hbid]
    rw [hcongr, hkey]
    simp
  · have : l.countP (fun x => decide (x.id = bid)) = 0 := by
      apply List.countP_eq_zero.mpr
      intro x hx
      simp only [decide_eq_true_eq]
      exact fun h' => hex ⟨x, hx, h'⟩
    omega

/-- Eligible birthdays inherit distinct ids from the birthdays table. -/
theorem eligible_nodup {db : DB} {today : Date}
    (h : (db.birthdays.map BirthdayRec.id).Nodup) :
    ((eligibleBirthdays db today).map BirthdayRec.id).Nodup :=
  List.Nodup.sublist ((List.filter_sublist _).map _) h

/-- Pair counts after a materialization run: the old count plus the
count of eligible birthdays carrying the key. -/
theorem pairCount_createTodaysRemindersAt (db : DB) (today : Date) (ids : Nat → Nat)
    (bid : Nat) (d : Date) :
    pairCount (createTodaysRemindersAt db today ids).1 bid d
      = pairCount db bid d
        + (eligibleBirthdays db today).countP
            (fun b => decide (b.id = bid) && decide (today = d)) := by
  unfold pairCount
  rw [createTodaysRemindersAt_reminders, List.countP_append, List.countP_map]
  congr 1
  apply List.countP_congr
  intro b _
  simp [Function.comp]

/-- After one materialization run every birthday that matches the date
and sits in an active group has a reminder row for that date, so a
second run has nothing left to select. -/
theorem eligible_after_run (db : DB) (today : Date) (ids : Nat → Nat) :
    eligibleBirthdays (createTodaysRemindersAt db today ids).1 today = [] := by
  apply List.filter_eq_nil_iff.mpr
  intro b hb
  rw [createTodaysRemindersAt_birthdays] at hb
  have hact : activeGroup (createTodaysRemindersAt db today ids).1 b.groupId
      = activeGroup db b.groupId := by
    simp [activeGroup, createTodaysRemindersAt_groups]
  intro hcond
  rw [Bool.and_eq_true, Bool.and_eq_true] at hcond
  obtain ⟨⟨hmd, hactive⟩, hnot⟩ := hcond
  rw [decide_eq_true_eq] at hmd
  rw [hact] at hactive
  rw [Bool.not_eq_true'] at hnot
  have hrem : hasReminderFor (createTodaysRemindersAt db today ids).1 b.id today
      = true := by
    simp only [hasReminderFor, createTodaysRemindersAt_reminders, List.any_append,
      Bool.or_eq_true]
    by_cases hc : hasReminderFor db b.id today = true
    · exact Or.inl hc
    · refine Or.inr (List.any_eq_true.mpr ?_)
      have hel : b ∈ eligibleBirthdays db today :=
        mem_eligibleBirthdays.mpr ⟨hb, hmd, hactive, Bool.eq_false_iff.mpr hc⟩
      exact ⟨_, List.mem_map_of_mem _ hel, by simp⟩
  rw [hrem] at hnot
  cases hnot

/-- Claim C3: the materialization SELECT-then-INSERT preserves the
at-most-one-per-(birthday, date) invariant; after one run every
matching active birthday has exactly one reminder row for the date;
and an immediate second run for the same date creates zero rows and
leaves the store unchanged. -/
theorem materialization_idempotent (db : DB) (today : Date) (ids ids2 : Nat → Nat)
    (hnodup : (db.birthdays.map BirthdayRec.id).Nodup)
    (huniq : pairUnique db) :
    pairUnique (createTodaysRemindersAt db today ids).1 ∧
    (∀ b ∈ db.birthdays, md b.birthDate = md today →
        activeGroup db b.groupId = true →
        pairCount (createTodaysRemindersAt db today ids).1 b.id today = 1) ∧
    createTodaysRemindersAt (createTodaysRemindersAt db today ids).1 today ids2
      = ((createTodaysRemindersAt db today ids).1, 0) := by
  refine ⟨?_, ?_, ?_⟩
  · intro bid d
    rw [pairCount_createTodaysRemindersAt]
    by_cases hd : today = d
    · subst hd
      have hcongr : (eligibleBirthdays db today).countP
            (fun b => decide (b.id = bid) && decide (today = today))
          = (eligibleBirthdays db today).countP (fun b => decide (b.id = bid)) := by
        apply List.countP_congr
        intro x _
        simp
      rw [hcongr]
      by_cases hc : (eligibleBirthdays db today).countP
          (fun b => decide (b.id = bid)) = 0
      · rw [hc]
        have := huniq bid today
        omega
      · obtain ⟨b, hb, hbid⟩ := List.countP_pos_iff.mp (Nat.pos_of_ne_zero hc)
        simp only [decide_eq_true_eq] at hbid
        obtain ⟨_, _, _, hrem⟩ := mem_eligibleBirthdays.mp hb
        have h0 : pairCount db bid today = 0 := by
          rw [← hbid]
          by_contra hne
          have hpos : 0 < pairCount db b.id today := Nat.pos_of_ne_zero hne
          rw [(hasReminderFor_iff db b.id today).mpr hpos] at hrem
          cases hrem
        have hle := @nodup_countP_le_one (eligibleBirthdays db today)
          (@eligible_nodup db today hnodup) bid
        omega
    · have hz : (eligibleBirthdays db today).countP
          (fun b => decide (b.id = bid) && decide (today = d)) = 0 := by
        apply List.countP_eq_zero.mpr
        intro x _
        simp [hd]
      rw [hz]
      have := huniq bid d
      omega
  · intro b hb hmd hact
    rw [pairCount_createTodaysRemindersAt]
    have hstep : (eligibleBirthdays db today).countP
          (fun x => decide (x.id = b.id) && decide (today = today))
        = db.birthdays.countP (fun x => decide (x.id = b.id)
            && (decide (md x.birthDate = md today) && activeGroup db x.groupId
              && !hasReminderFor db x.id today)) := by
      rw [eligibleBirthdays, List.countP_filter]
      apply List.countP_congr
      intro x _
      simp
    rw [hstep, nodup_countP_key hnodup hb]
    by_cases hc : hasReminderFor db b.id today = true
    · have h1 : 0 < pairCount db b.id today := (hasReminderFor_iff db b.id today).mp hc
      have h2 := huniq b.id today
      simp [hmd, hact, hc]
      omega
    · have hfalse : hasReminderFor db b.id today = false := Bool.eq_false_iff.mpr hc
      have h0 : pairCount db b.id today = 0 := by
        by_contra hne
        rw [(hasReminderFor_iff db b.id today).mpr (Nat.pos_of_ne_zero hne)] at hfalse
        cases hfalse
      simp [hmd, hact, hfalse, h0]
  · have he := eligible_after_run db today ids
    have hunfold : createTodaysRemindersAt (createTodaysRemindersAt db today ids).1
          today ids2
        = ((eligibleBirthdays (createTodaysRemindersAt db today ids).1 today).foldl
            (fun acc b => createReminder acc (ids2 b.id) b.id today)
            (createTodaysRemindersAt db today ids).1,
          (eligibleBirthdays (createTodaysRemindersAt db today ids).1 today).length) := rfl
    rw [hunfold, he]
    simp

/-- Witness for C3 on the store `db3` (one eligible birthday, no
reminder rows yet). -/
theorem materialization_idempotent_witness :
    pairCount (createTodaysRemindersAt db3 ⟨2025, 3, 15⟩ (fun n => n + 100)).1
        1 ⟨2025, 3, 15⟩ = 1 ∧
    createTodaysRemindersAt (createTodaysRemindersAt db3 ⟨2025, 3, 15⟩
        (fun n => n + 100)).1 ⟨2025, 3, 15⟩ (fun n => n + 200)
      = ((createTodaysRemindersAt db3 ⟨2025, 3, 15⟩ (fun n => n + 100)).1, 0) := by
  have h := materialization_idempotent db3 ⟨2025, 3, 15⟩ (fun n => n + 100)
    (fun n => n + 200) (by decide) (fun bid d => by simp [pairCount, db3])
  exact ⟨h.2.1 ⟨1, 1, ⟨1990, 3, 15⟩, 1⟩ (by decide) (by decide) (by decide), h.2.2⟩

/-! ### Claim C10: active-group filtering -/

/-- A matched row of a LEFT JOIN comes from the matching row list. -/
theorem mem_leftJoin_some {α : Type} {ms : List α} {a : α}
    (h : some a ∈ leftJoin ms) : a ∈ ms := by
  unfold leftJoin at h
  by_cases he : ms.isEmpty
  · rw [if_pos he] at h
    simp at h
  · rw [if_neg he] at h
    obtain ⟨x, hx, hxa⟩ := List.mem_map.mp h
    cases hxa
    exact hx

/-- Claim C10: both the pending-reminder query and the materialization
SELECT filter on bot_active — every returned pending row belongs to a
group that is active at query time, and every reminder row a
materialization run adds belongs to a birthday whose group is active. -/
theorem active_group_filtering :
    (∀ (db : DB) (d : Date) (row : PendingRow),
        row ∈ getPendingReminders db d →
        ∃ g, g ∈ db.groups ∧ g.groupId = row.groupId ∧ g.botActive = true) ∧
    (∀ (db : DB) (today : Date) (ids : Nat → Nat) (r : ReminderRec),
        r ∈ (createTodaysRemindersAt db today ids).1.reminders →
        r ∈ db.reminders ∨ ∃ b g, b ∈ db.birthdays ∧ r.birthdayId = b.id ∧
          g ∈ db.groups ∧ g.groupId = b.groupId ∧ g.botActive = true) := by
  constructor
  · intro db d row hrow
    rw [getPendingReminders, List.mem_insertionSort] at hrow
    simp only [pendingRows, List.mem_flatMap] at hrow
    obtain ⟨r, _, b, hb, u?, _, hrow⟩ := hrow
    obtain ⟨g?, hg?, hmk⟩ := List.mem_filterMap.mp hrow
    cases g? with
    | none => simp at hmk
    | some g =>
      have hg : g ∈ db.groups.filter fun g => decide (g.groupId = b.groupId) :=
        mem_leftJoin_some hg?
      rcases List.mem_filter.mp hg with ⟨hgmem, hgid⟩
      rw [decide_eq_true_eq] at hgid
      dsimp only at hmk
      by_cases hcond : r.reminderDate = d ∧ r.sent = false ∧ g.botActive = true
      · rw [if_pos hcond] at hmk
        cases hmk
        exact ⟨g, hgmem, hgid, hcond.2.2⟩
      · rw [if_neg hcond] at hmk
        cases hmk
  · intro db today ids r hr
    rw [createTodaysRemindersAt_reminders] at hr
    rcases List.mem_append.mp hr with hold | hnew
    · exact Or.inl hold
    · obtain ⟨b, hb, hmk⟩ := List.mem_map.mp hnew
      obtain ⟨hbmem, _, hbact, _⟩ := mem_eligibleBirthdays.mp hb
      obtain ⟨g, hg, hgp⟩ := List.any_eq_true.mp hbact
      rw [decide_eq_true_eq] at hgp
      exact Or.inr ⟨b, g, hbmem, by rw [← hmk], hg, hgp.1, hgp.2⟩

/-- Witness for C10: the pending row of `db1` and the reminder created
on `db3` both sit in active groups. -/
theorem active_group_filtering_witness :
    (∃ g, g ∈ db1.groups
      ∧ g.groupId = (⟨1, 1, 1, 1, some 1, 1⟩ : PendingRow).groupId
      ∧ g.botActive = true) ∧
    ((⟨101, 1, ⟨2025, 3, 15⟩, false, none⟩ : ReminderRec)
        ∈ db3.reminders ∨
      ∃ b g, b ∈ db3.birthdays
        ∧ (⟨101, 1, ⟨2025, 3, 15⟩, false, none⟩ : ReminderRec).birthdayId = b.id
        ∧ g ∈ db3.groups ∧ g.groupId = b.groupId ∧ g.botActive = true) := by
  exact ⟨active_group_filtering.1 db1 ⟨2025, 3, 15⟩ ⟨1, 1, 1, 1, some 1, 1⟩ (by decide),
    active_group_filtering.2 db3 ⟨2025, 3, 15⟩ (fun n => n + 100)
      ⟨101, 1, ⟨2025, 3, 15⟩, false, none⟩ (by decide)⟩

end BirthdayBot
